import Mathlib

/-
Verification of the session / now-playing core of src/src/components/Frame.tsx.

The component state (React useState hooks plus the single localStorage slot
spotify_access_token) is embedded as a record.  The async function
fetchNowPlaying is embedded as a pure function from the token it reads and a
transport environment (the responses the two Spotify endpoints would return)
to the ordered list of observable effects it performs; a separate fold applies
those effects to the state.  The auth-callback useEffect (hash parsing) is
embedded as a pure function on the state and the visible fragment.
-/

/-- An artist entry of a Spotify track, as declared in Frame.tsx. -/
structure Artist where
  name : String
deriving DecidableEq

/-- A cover-image entry of an album. -/
structure AlbumImage where
  url : String
deriving DecidableEq

/-- The album record of a Spotify track. -/
structure Album where
  name : String
  images : List AlbumImage
deriving DecidableEq

/-- The external-links record of a Spotify track. -/
structure ExternalUrls where
  spotify : String
deriving DecidableEq

/-- A Spotify track, as the interface SpotifyTrack in Frame.tsx. -/
structure SpotifyTrack where
  id : String
  name : String
  artists : List Artist
  album : Album
  external_urls : ExternalUrls
deriving DecidableEq

/-- The parsed body of the currently-playing endpoint, as the interface
SpotifyCurrentlyPlaying in Frame.tsx. -/
structure SpotifyCurrentlyPlaying where
  is_playing : Bool
  item : Option SpotifyTrack
deriving DecidableEq

/-- One entry of the recently-played body; only the track field is used. -/
structure RecentlyPlayedItem where
  track : SpotifyTrack
deriving DecidableEq

/-- The parsed body of the recently-played endpoint.  The items field is
optional because the code guards with a truthiness check on data.items. -/
structure RecentlyPlayedBody where
  items : Option (List RecentlyPlayedItem)
deriving DecidableEq

/-- The result of one network call: either the request itself threw, or it
returned a status code together with what the json method would produce
(Except.error when reading the body would throw). -/
inductive Resp (β : Type) where
  | exn : Resp β
  | mk (status : Nat) (json : Except Unit β) : Resp β

/-- The status of a response that did not throw. -/
def respStatus {β : Type} : Resp β → Option Nat
  | Resp.exn => none
  | Resp.mk s _ => some s

/-- The transport environment of one fetchNowPlaying invocation: the response
each of the two endpoints would return if its request were issued. -/
structure Env where
  currentlyPlaying : Resp SpotifyCurrentlyPlaying
  recentlyPlayed : Resp RecentlyPlayedBody

/-- The ok flag of a fetch Response: status in the range 200 to 299. -/
def isOk (status : Nat) : Bool := decide (200 ≤ status) && decide (status < 300)

/-- JS truthiness of the value read from localStorage: getItem returns null or
a string, and both null and the empty string fail the if-token guard. -/
def tokenPresent : Option String → Bool
  | none => false
  | some t => decide (t ≠ "")

/-- One observable effect of a fetchNowPlaying invocation, in program order:
the state setters, the two outbound requests, the localStorage removal and
the console error log. -/
inductive Ev where
  | setIsLoading (b : Bool)
  | requestCurrentlyPlaying
  | requestRecentlyPlayed
  | setCurrentTrack (t : Option SpotifyTrack)
  | setIsPlaying (b : Bool)
  | setIsAuthenticated (b : Bool)
  | removeToken
  | logError
deriving DecidableEq

/-- Whether an event is one of the two outbound requests. -/
def isRequestEv : Ev → Bool
  | Ev.requestCurrentlyPlaying => true
  | Ev.requestRecentlyPlayed => true
  | _ => false

/-- The effects of the try block of fetchNowPlaying (Frame.tsx lines 135-173)
together with whether the block throws: the missing-token early return, then
the currently-playing request, then the 204 branch with its recently-played
fallback, the ok branch reading the payload, the 401 branch clearing the
credential, and silence on every other status. -/
def tryBlock (token : Option String) (env : Env) : List Ev × Bool :=
  if tokenPresent token = false then
    ([Ev.setIsLoading false], false)
  else
    match env.currentlyPlaying with
    | Resp.exn => ([Ev.requestCurrentlyPlaying], true)
    | Resp.mk status json =>
      if status = 204 then
        match env.recentlyPlayed with
        | Resp.exn => ([Ev.requestCurrentlyPlaying, Ev.requestRecentlyPlayed], true)
        | Resp.mk rstatus rjson =>
          if isOk rstatus = true then
            match rjson with
            | Except.error _ =>
              ([Ev.requestCurrentlyPlaying, Ev.requestRecentlyPlayed], true)
            | Except.ok data =>
              match data.items with
              | some (first :: _) =>
                ([Ev.requestCurrentlyPlaying, Ev.requestRecentlyPlayed,
                  Ev.setCurrentTrack (some first.track), Ev.setIsPlaying false], false)
              | some [] =>
                ([Ev.requestCurrentlyPlaying, Ev.requestRecentlyPlayed], false)
              | none =>
                ([Ev.requestCurrentlyPlaying, Ev.requestRecentlyPlayed], false)
          else
            ([Ev.requestCurrentlyPlaying, Ev.requestRecentlyPlayed], false)
      else if isOk status = true then
        match json with
        | Except.error _ => ([Ev.requestCurrentlyPlaying], true)
        | Except.ok data =>
          ([Ev.requestCurrentlyPlaying, Ev.setCurrentTrack data.item,
            Ev.setIsPlaying data.is_playing], false)
      else if status = 401 then
        ([Ev.requestCurrentlyPlaying, Ev.removeToken, Ev.setIsAuthenticated false], false)
      else
        ([Ev.requestCurrentlyPlaying], false)

/-- The full event sequence of one fetchNowPlaying call: the loading flag is
raised first, the try block runs, a thrown error is logged by the catch
clause, and the finally clause lowers the loading flag on every exit path. -/
def fetchNowPlaying (token : Option String) (env : Env) : List Ev :=
  (Ev.setIsLoading true :: ((tryBlock token env).1
    ++ (if (tryBlock token env).2 = true then [Ev.logError] else [])))
    ++ [Ev.setIsLoading false]

/-- The React state of the Frame component together with the single
localStorage slot spotify_access_token. -/
structure ComponentState where
  spotifyToken : Option String
  currentTrack : Option SpotifyTrack
  isPlaying : Bool
  isLoading : Bool
  isAuthenticated : Bool
deriving DecidableEq

/-- Apply one event to the component state. -/
def applyEv (s : ComponentState) : Ev → ComponentState
  | Ev.setIsLoading b => { s with isLoading := b }
  | Ev.requestCurrentlyPlaying => s
  | Ev.requestRecentlyPlayed => s
  | Ev.setCurrentTrack t => { s with currentTrack := t }
  | Ev.setIsPlaying b => { s with isPlaying := b }
  | Ev.setIsAuthenticated b => { s with isAuthenticated := b }
  | Ev.removeToken => { s with spotifyToken := none }
  | Ev.logError => s

/-- Apply a list of events to the component state from left to right. -/
def applyEvents (s : ComponentState) (evs : List Ev) : ComponentState :=
  evs.foldl applyEv s

/-- Run one fetchNowPlaying invocation from a state; the token is the value
read from the localStorage slot at the start of the call. -/
def runFetch (s : ComponentState) (env : Env) : ComponentState :=
  applyEvents s (fetchNowPlaying s.spotifyToken env)

/-- Split a list of characters at every occurrence of the separator. -/
def splitOnChar (c : Char) : List Char → List (List Char)
  | [] => [[]]
  | x :: xs =>
    if x = c then [] :: splitOnChar c xs
    else
      match splitOnChar c xs with
      | [] => [[x]]
      | y :: ys => (x :: y) :: ys

/-- Split one query pair at the first equals sign; a pair without an equals
sign is a key with the empty value. -/
def splitPairChars : List Char → List Char × List Char
  | [] => ([], [])
  | x :: xs =>
    if x = '=' then ([], xs)
    else
      let p := splitPairChars xs
      (x :: p.1, p.2)

/-- Models the web URLSearchParams parse used by the auth callback, for
fragments without percent-escapes: split on ampersands, drop empty pairs,
split each pair at its first equals sign. -/
def parseParams (q : String) : List (String × String) :=
  ((splitOnChar '&' q.toList).filter (fun p => p ≠ [])).map
    (fun p => ((splitPairChars p).1.asString, (splitPairChars p).2.asString))

/-- Models URLSearchParams.get: the value of the first pair with the given
key, or null when no pair has it. -/
def getParam (ps : List (String × String)) (k : String) : Option String :=
  (ps.find? (fun p => p.1 = k)).map (fun p => p.2)

/-- The result of the auth-callback effect: the new component state, the new
visible fragment, and whether fetchNowPlaying was invoked. -/
structure AuthCallbackResult where
  state : ComponentState
  hash : String
  fetchInvoked : Bool
deriving DecidableEq

/-- The auth-callback useEffect of Frame.tsx lines 182-194: when the fragment
is non-empty and holds a truthy access_token parameter, persist the token,
mark authenticated, clear the visible fragment and invoke a fetch. -/
def authCallback (hash : String) (s : ComponentState) : AuthCallbackResult :=
  if hash ≠ "" then
    match getParam (parseParams ((hash.toList.drop 1).asString)) "access_token" with
    | some t =>
      if t ≠ "" then
        { state := { s with spotifyToken := some t, isAuthenticated := true },
          hash := "", fetchInvoked := true }
      else
        { state := s, hash := hash, fetchInvoked := false }
    | none => { state := s, hash := hash, fetchInvoked := false }
  else
    { state := s, hash := hash, fetchInvoked := false }

/-- A concrete track used by the concrete-input theorems. -/
def trackA : SpotifyTrack :=
  { id := "t1", name := "Song A", artists := [{ name := "Artist A" }],
    album := { name := "Album A", images := [{ url := "http://x/a.jpg" }] },
    external_urls := { spotify := "http://open/a" } }

/-- A second concrete track, returned by the recently-played fixture. -/
def trackB : SpotifyTrack :=
  { id := "t2", name := "Song B", artists := [{ name := "Artist B" }],
    album := { name := "Album B", images := [] },
    external_urls := { spotify := "http://open/b" } }

/-- A concrete authenticated state with no track yet. -/
def st0 : ComponentState :=
  { spotifyToken := some "tok1", currentTrack := none, isPlaying := false,
    isLoading := false, isAuthenticated := true }

/-- A concrete authenticated state that already holds trackA as playing. -/
def stWithTrack : ComponentState :=
  { spotifyToken := some "tok1", currentTrack := some trackA, isPlaying := true,
    isLoading := false, isAuthenticated := true }

/-- A 200 currently-playing response whose payload reports is playing false. -/
def envPaused : Env :=
  { currentlyPlaying := Resp.mk 200 (Except.ok { is_playing := false, item := some trackA }),
    recentlyPlayed := Resp.exn }

/-- A 200 currently-playing response whose payload item is null. -/
def envNullItem : Env :=
  { currentlyPlaying := Resp.mk 200 (Except.ok { is_playing := false, item := none }),
    recentlyPlayed := Resp.exn }

/-- A 200 currently-playing response with an actively playing trackA. -/
def envPlayingA : Env :=
  { currentlyPlaying := Resp.mk 200 (Except.ok { is_playing := true, item := some trackA }),
    recentlyPlayed := Resp.exn }

/-- A 401 currently-playing response. -/
def env401 : Env :=
  { currentlyPlaying := Resp.mk 401 (Except.error ()),
    recentlyPlayed := Resp.exn }

/-- A 204 currently-playing response with a one-entry recently-played body. -/
def env204recent : Env :=
  { currentlyPlaying := Resp.mk 204 (Except.error ()),
    recentlyPlayed := Resp.mk 200 (Except.ok { items := some [{ track := trackB }] }) }

/-- A 204 currently-playing response with an empty recently-played body. -/
def env204empty : Env :=
  { currentlyPlaying := Resp.mk 204 (Except.error ()),
    recentlyPlayed := Resp.mk 200 (Except.ok { items := some [] }) }

/-- A 204 currently-playing response whose fallback answers 401. -/
def env204fallback401 : Env :=
  { currentlyPlaying := Resp.mk 204 (Except.error ()),
    recentlyPlayed := Resp.mk 401 (Except.error ()) }

/-- A 500 currently-playing response. -/
def env500 : Env :=
  { currentlyPlaying := Resp.mk 500 (Except.error ()),
    recentlyPlayed := Resp.exn }

/-- A non-empty token passes the JS truthiness guard. -/
lemma tokenPresent_some {t : String} (h : t ≠ "") : tokenPresent (some t) = true := by
  simp [tokenPresent, h]

/-- Running the events of an appended list is running each part in turn. -/
lemma applyEvents_append (s : ComponentState) (l1 l2 : List Ev) :
    applyEvents s (l1 ++ l2) = applyEvents (applyEvents s l1) l2 := by
  simp [applyEvents, List.foldl_append]

/-- The fallback request is in the try-block event list exactly when the token
is present and the currently-playing request returned status 204. -/
lemma mem_fallback_tryBlock (token : Option String) (env : Env) :
    Ev.requestRecentlyPlayed ∈ (tryBlock token env).1 ↔
      (tokenPresent token = true ∧ respStatus env.currentlyPlaying = some 204) := by
  obtain ⟨cp, rp⟩ := env
  cases htok : tokenPresent token with
  | false => simp [tryBlock, htok, respStatus]
  | true =>
    cases cp with
    | exn => simp [tryBlock, htok, respStatus]
    | mk status json =>
      by_cases hs : status = 204
      · subst hs
        cases rp with
        | exn => simp [tryBlock, htok, respStatus]
        | mk rs rj =>
          by_cases hok : isOk rs = true
          · cases rj with
            | error e => simp [tryBlock, htok, hok, respStatus]
            | ok data =>
              rcases hitems : data.items with _ | (_ | ⟨first, rest⟩) <;>
                simp [tryBlock, htok, hok, hitems, respStatus]
          · simp [tryBlock, htok, hok, respStatus]
      · by_cases hok : isOk status = true
        · cases json with
          | error e => simp [tryBlock, htok, hs, hok, respStatus]
          | ok data => simp [tryBlock, htok, hs, hok, respStatus]
        · by_cases h401 : status = 401
          · subst h401
            simp [tryBlock, htok, hs, isOk, respStatus]
          · simp [tryBlock, htok, hs, hok, h401, respStatus]

/-- The fallback request is in the full trace exactly when it is in the
try-block event list: the surrounding loading and logging events are not it. -/
lemma mem_fallback_fetch (token : Option String) (env : Env) :
    Ev.requestRecentlyPlayed ∈ fetchNowPlaying token env ↔
      Ev.requestRecentlyPlayed ∈ (tryBlock token env).1 := by
  cases hb : (tryBlock token env).2 <;> simp [fetchNowPlaying, hb]

/-- Claim C1, counterexample: with a valid token, a success (200)
currently-playing response whose payload carries a track but reports
is playing false leaves the isPlaying flag false, so a 200 response with a
payload does not always yield isPlaying true. -/
theorem C1_counterexample :
    respStatus envPaused.currentlyPlaying = some 200 ∧
    (runFetch st0 envPaused).currentTrack = some trackA ∧
    (runFetch st0 envPaused).isPlaying = false := by decide

/-- Claim C1, amended: for every valid token, when the currently-playing
request returns a success (200) response with a payload whose is playing flag
is true, the isPlaying flag is set to true and the track is set equal to the
payload item. -/
theorem C1_amended (s : ComponentState) (env : Env) (t : String)
    (data : SpotifyCurrentlyPlaying)
    (htok : s.spotifyToken = some t) (ht : t ≠ "")
    (hcp : env.currentlyPlaying = Resp.mk 200 (Except.ok data))
    (hplay : data.is_playing = true) :
    (runFetch s env).isPlaying = true ∧
    (runFetch s env).currentTrack = data.item := by
  simp [runFetch, fetchNowPlaying, tryBlock, htok, hcp, tokenPresent_some ht, isOk,
    applyEvents, applyEv, hplay]

/-- Claim C1, amended, witness at a concrete playing response. -/
theorem C1_amended_witness :
    (runFetch st0 envPlayingA).isPlaying = true ∧
    (runFetch st0 envPlayingA).currentTrack = some trackA :=
  C1_amended st0 envPlayingA "tok1" { is_playing := true, item := some trackA }
    rfl (by decide) rfl rfl

/-- Claim C2, counterexample: with a prior track present, a success (200)
currently-playing response whose payload item is null overwrites the playback
state: the track setter fires with null and the stored track changes, so the
state is not left unchanged and an update is emitted. -/
theorem C2_counterexample :
    stWithTrack.currentTrack = some trackA ∧
    respStatus envNullItem.currentlyPlaying = some 200 ∧
    Ev.setCurrentTrack none ∈ fetchNowPlaying stWithTrack.spotifyToken envNullItem ∧
    (runFetch stWithTrack envNullItem).currentTrack ≠ stWithTrack.currentTrack := by
  decide

/-- Claim C2, amended: when the currently-playing request returns a success
(200) response whose payload item is null, the track is set to absent and
isPlaying is set to the payload is playing flag; the prior playback state is
overwritten, not preserved. -/
theorem C2_amended (s : ComponentState) (env : Env) (t : String)
    (data : SpotifyCurrentlyPlaying)
    (htok : s.spotifyToken = some t) (ht : t ≠ "")
    (hcp : env.currentlyPlaying = Resp.mk 200 (Except.ok data))
    (hitem : data.item = none) :
    (runFetch s env).currentTrack = none ∧
    (runFetch s env).isPlaying = data.is_playing := by
  simp [runFetch, fetchNowPlaying, tryBlock, htok, hcp, tokenPresent_some ht, isOk,
    applyEvents, applyEv, hitem]

/-- Claim C2, amended, witness at a concrete null-item response. -/
theorem C2_amended_witness :
    (runFetch stWithTrack envNullItem).currentTrack = none ∧
    (runFetch stWithTrack envNullItem).isPlaying = false :=
  C2_amended stWithTrack envNullItem "tok1" { is_playing := false, item := none }
    rfl (by decide) rfl rfl

/-- Claim C3: when the currently-playing request returns 401, the stored
credential is cleared (a write of the token followed by the 401 leaves the
credential slot absent), isAuthenticated becomes false, and the track and
isPlaying are left unchanged. -/
theorem C3_expiredClearsCredential (s : ComponentState) (env : Env) (tok : String)
    (j : Except Unit SpotifyCurrentlyPlaying)
    (ht : tok ≠ "") (hcp : env.currentlyPlaying = Resp.mk 401 j) :
    (runFetch { s with spotifyToken := some tok } env).spotifyToken = none ∧
    (runFetch { s with spotifyToken := some tok } env).isAuthenticated = false ∧
    (runFetch { s with spotifyToken := some tok } env).currentTrack = s.currentTrack ∧
    (runFetch { s with spotifyToken := some tok } env).isPlaying = s.isPlaying := by
  simp [runFetch, fetchNowPlaying, tryBlock, hcp, tokenPresent_some ht, isOk,
    applyEvents, applyEv]

/-- Claim C3, witness at a concrete 401 response. -/
theorem C3_witness :
    (runFetch { st0 with spotifyToken := some "tok1" } env401).spotifyToken = none ∧
    (runFetch { st0 with spotifyToken := some "tok1" } env401).isAuthenticated = false ∧
    (runFetch { st0 with spotifyToken := some "tok1" } env401).currentTrack
        = st0.currentTrack ∧
    (runFetch { st0 with spotifyToken := some "tok1" } env401).isPlaying
        = st0.isPlaying :=
  C3_expiredClearsCredential st0 env401 "tok1" (Except.error ()) (by decide) rfl

/-- Claim C4: for every token, when the currently-playing request returns the
204 no-content signal and the recently-played request succeeds with a
non-empty history, the track is set to the first history entry and isPlaying
is set to false. -/
theorem C4_recentlyPlayed (s : ComponentState) (env : Env) (t : String)
    (j : Except Unit SpotifyCurrentlyPlaying) (rs : Nat) (body : RecentlyPlayedBody)
    (first : RecentlyPlayedItem) (rest : List RecentlyPlayedItem)
    (htok : s.spotifyToken = some t) (ht : t ≠ "")
    (hcp : env.currentlyPlaying = Resp.mk 204 j)
    (hrp : env.recentlyPlayed = Resp.mk rs (Except.ok body))
    (hok : isOk rs = true)
    (hitems : body.items = some (first :: rest)) :
    (runFetch s env).currentTrack = some first.track ∧
    (runFetch s env).isPlaying = false := by
  simp [runFetch, fetchNowPlaying, tryBlock, htok, hcp, hrp, hok, hitems,
    tokenPresent_some ht, applyEvents, applyEv]

/-- Claim C4, witness at a concrete 204-then-history pair of responses. -/
theorem C4_witness :
    (runFetch st0 env204recent).currentTrack = some trackB ∧
    (runFetch st0 env204recent).isPlaying = false :=
  C4_recentlyPlayed st0 env204recent "tok1" (Except.error ()) 200
    { items := some [{ track := trackB }] } { track := trackB } [] rfl (by decide)
    rfl rfl (by decide) rfl

/-- Claim C5: with a present token, the recently-played fallback request is
issued if and only if the currently-playing request returned status 204; it is
never issued on an exception, a 401 or any other status. -/
theorem C5_fallbackIff (t : String) (env : Env) (ht : t ≠ "") :
    Ev.requestRecentlyPlayed ∈ fetchNowPlaying (some t) env ↔
      respStatus env.currentlyPlaying = some 204 := by
  rw [mem_fallback_fetch, mem_fallback_tryBlock]
  simp [tokenPresent_some ht]

/-- Claim C5, witness at a concrete 204 environment. -/
theorem C5_witness :
    Ev.requestRecentlyPlayed ∈ fetchNowPlaying (some "tok1") env204empty ↔
      respStatus env204empty.currentlyPlaying = some 204 :=
  C5_fallbackIff "tok1" env204empty (by decide)

/-- Claim C6: for every token, when the currently-playing request returns 204
and the recently-played request succeeds but reports no items (a missing or
empty items list), the track and isPlaying are left unchanged. -/
theorem C6_emptyNoOp (s : ComponentState) (env : Env) (t : String)
    (j : Except Unit SpotifyCurrentlyPlaying) (rs : Nat) (body : RecentlyPlayedBody)
    (htok : s.spotifyToken = some t) (ht : t ≠ "")
    (hcp : env.currentlyPlaying = Resp.mk 204 j)
    (hrp : env.recentlyPlayed = Resp.mk rs (Except.ok body))
    (hok : isOk rs = true)
    (hitems : body.items = none ∨ body.items = some []) :
    (runFetch s env).currentTrack = s.currentTrack ∧
    (runFetch s env).isPlaying = s.isPlaying := by
  rcases hitems with hi | hi <;>
    simp [runFetch, fetchNowPlaying, tryBlock, htok, hcp, hrp, hok, hi,
      tokenPresent_some ht, applyEvents, applyEv]

/-- Claim C6, witness at a concrete 204-then-empty-history pair. -/
theorem C6_witness :
    (runFetch stWithTrack env204empty).currentTrack = stWithTrack.currentTrack ∧
    (runFetch stWithTrack env204empty).isPlaying = stWithTrack.isPlaying :=
  C6_emptyNoOp stWithTrack env204empty "tok1" (Except.error ()) 200
    { items := some [] } rfl (by decide) rfl rfl (by decide) (Or.inr rfl)

/-- Claim C7: for a request-level exception or any non-success status other
than 401 (204 is a success status, so it is excluded by non-success), the
track, isPlaying, isAuthenticated and the stored credential are unchanged, and
the only request ever issued is the single currently-playing request: no
fallback and no retry. -/
theorem C7_transientFailure (s : ComponentState) (env : Env) (t : String)
    (htok : s.spotifyToken = some t) (ht : t ≠ "")
    (h : env.currentlyPlaying = Resp.exn ∨
      ∃ st j, env.currentlyPlaying = Resp.mk st j ∧ isOk st = false ∧ st ≠ 401) :
    (runFetch s env).currentTrack = s.currentTrack ∧
    (runFetch s env).isPlaying = s.isPlaying ∧
    (runFetch s env).isAuthenticated = s.isAuthenticated ∧
    (runFetch s env).spotifyToken = s.spotifyToken ∧
    (fetchNowPlaying s.spotifyToken env).filter isRequestEv
      = [Ev.requestCurrentlyPlaying] := by
  rcases h with hcp | ⟨st, j, hcp, hnok, h401⟩
  · simp [runFetch, fetchNowPlaying, tryBlock, htok, hcp, tokenPresent_some ht,
      applyEvents, applyEv, isRequestEv]
  · have h204 : st ≠ 204 := by
      rintro rfl
      simp [isOk] at hnok
    simp [runFetch, fetchNowPlaying, tryBlock, htok, hcp, tokenPresent_some ht,
      h204, hnok, h401, applyEvents, applyEv, isRequestEv]

/-- Claim C7, witness at a concrete 500 response. -/
theorem C7_witness :
    (runFetch st0 env500).currentTrack = st0.currentTrack ∧
    (runFetch st0 env500).isPlaying = st0.isPlaying ∧
    (runFetch st0 env500).isAuthenticated = st0.isAuthenticated ∧
    (runFetch st0 env500).spotifyToken = st0.spotifyToken ∧
    (fetchNowPlaying st0.spotifyToken env500).filter isRequestEv
      = [Ev.requestCurrentlyPlaying] :=
  C7_transientFailure st0 env500 "tok1" rfl (by decide)
    (Or.inr ⟨500, Except.error (), rfl, by decide, by decide⟩)

/-- Claim C8: on every invocation, for every token and every transport
behaviour, the very first event raises isLoading (so it precedes any request),
the very last event lowers it, and the state after the call has isLoading
false on every exit path including exceptions. -/
theorem C8_loadingLifecycle (token : Option String) (env : Env) (s : ComponentState) :
    (fetchNowPlaying token env).head? = some (Ev.setIsLoading true) ∧
    (fetchNowPlaying token env).getLast? = some (Ev.setIsLoading false) ∧
    (applyEvents s (fetchNowPlaying token env)).isLoading = false := by
  refine ⟨rfl, ?_, ?_⟩
  · rw [fetchNowPlaying, List.getLast?_concat]
  · rw [fetchNowPlaying, applyEvents_append]
    simp [applyEvents, applyEv]

/-- Claim C9: when the visible fragment holds a truthy access token parameter,
the auth callback persists exactly that token value, sets isAuthenticated to
true, clears the visible fragment and invokes a fetch. -/
theorem C9_authCallbackPersists (hash : String) (s : ComponentState) (t : String)
    (hhash : hash ≠ "")
    (htok : getParam (parseParams ((hash.toList.drop 1).asString)) "access_token"
      = some t)
    (ht : t ≠ "") :
    (authCallback hash s).state.spotifyToken = some t ∧
    (authCallback hash s).state.isAuthenticated = true ∧
    (authCallback hash s).hash = "" ∧
    (authCallback hash s).fetchInvoked = true := by
  simp only [authCallback, htok]
  simp [hhash, ht]

/-- Claim C9, witness at the concrete fragment of the spec scenario. -/
theorem C9_witness :
    (authCallback "#access_token=abc123&token_type=Bearer" st0).state.spotifyToken
        = some "abc123" ∧
    (authCallback "#access_token=abc123&token_type=Bearer" st0).state.isAuthenticated
        = true ∧
    (authCallback "#access_token=abc123&token_type=Bearer" st0).hash = "" ∧
    (authCallback "#access_token=abc123&token_type=Bearer" st0).fetchInvoked = true :=
  C9_authCallbackPersists "#access_token=abc123&token_type=Bearer" st0 "abc123"
    (by decide) (by decide) (by decide)

/-- Claim C10: a 401 or any other non-ok response on the recently-played
fallback never clears the credential, never changes isAuthenticated, and
leaves the track and isPlaying unchanged: expiry is only detected on the
currently-playing request. -/
theorem C10_fallbackNotExpired (s : ComponentState) (env : Env) (t : String)
    (j : Except Unit SpotifyCurrentlyPlaying) (rs : Nat)
    (rj : Except Unit RecentlyPlayedBody)
    (htok : s.spotifyToken = some t) (ht : t ≠ "")
    (hcp : env.currentlyPlaying = Resp.mk 204 j)
    (hrp : env.recentlyPlayed = Resp.mk rs rj)
    (hnok : isOk rs = false) :
    (runFetch s env).spotifyToken = some t ∧
    (runFetch s env).isAuthenticated = s.isAuthenticated ∧
    (runFetch s env).currentTrack = s.currentTrack ∧
    (runFetch s env).isPlaying = s.isPlaying := by
  simp [runFetch, fetchNowPlaying, tryBlock, htok, hcp, hrp, hnok,
    tokenPresent_some ht, applyEvents, applyEv]

/-- Claim C10, witness at a concrete 204-then-401 pair of responses. -/
theorem C10_witness :
    (runFetch stWithTrack env204fallback401).spotifyToken = some "tok1" ∧
    (runFetch stWithTrack env204fallback401).isAuthenticated
        = stWithTrack.isAuthenticated ∧
    (runFetch stWithTrack env204fallback401).currentTrack
        = stWithTrack.currentTrack ∧
    (runFetch stWithTrack env204fallback401).isPlaying = stWithTrack.isPlaying :=
  C10_fallbackNotExpired stWithTrack env204fallback401 "tok1" (Except.error ()) 401
    (Except.error ()) rfl (by decide) rfl rfl (by decide)
